import Mathlib

/-
Verification of the markdown-to-document conversion script
src/presentation/create_docx.py (repository slavisadev/modular-laravel).

The script is a straight-line batch program: it creates a document, adds a
fixed title and subtitle, then for slide indices 1..10 reads the file
slide{i}.md when it exists and converts its lines into document elements
(page break, centered level-1 heading, bold bullets, indented sub-bullets,
monospace code paragraphs). We embed the element sequence the script appends
to the document and the per-line classification loop, faithfully to the
Python source. Text is modelled as List Char so that every operation is a
structurally recursive, kernel-executable function; the Python string
builtins used by the script are given exact counterparts:

  - str.strip()            ~ strip (drop unicode whitespace at both ends)
  - str.startswith(p)      ~ startswith (prefix test)
  - str.replace(old, new)  ~ pyreplace (every non-overlapping occurrence,
                             scanning left to right)
  - str.split(sep)         ~ pysplit (split on every non-overlapping
                             occurrence; always returns a nonempty list)
  - sep.join(xs)           ~ List.intercalate

Margins and the physical save step carry no element-sequence content and are
not modelled; the document body is the list of appended elements.
-/

namespace CreateDocx

/-- Text content, one character per entry, as read from the input files. -/
abbrev Chars := List Char

/-- Python str.strip with no arguments: remove whitespace characters from
both ends of the string. -/
def strip (s : Chars) : Chars :=
  ((s.dropWhile Char.isWhitespace).reverse.dropWhile Char.isWhitespace).reverse

/-- Python s.startswith(p). -/
def startswith (s p : Chars) : Bool :=
  List.isPrefixOf p s

/-- Worker for pyreplace: scan left to right with fuel bounded by the
length of the scanned text; on a match of old, emit new and skip past the
matched characters, otherwise keep one character and continue. -/
def replaceAux (old new : Chars) : Nat → Chars → Chars
  | _, [] => []
  | 0, s => s
  | fuel + 1, c :: rest =>
    if List.isPrefixOf old (c :: rest) then
      new ++ replaceAux old new fuel (List.drop (old.length - 1) rest)
    else
      c :: replaceAux old new fuel rest

/-- Python s.replace(old, new) for nonempty old: replace every
non-overlapping occurrence, scanning left to right. -/
def pyreplace (s old new : Chars) : Chars :=
  if old = [] then s else replaceAux old new s.length s

/-- Worker for pysplit: scan left to right with fuel bounded by the length
of the scanned text, collecting the current segment in reverse in acc; a
match of sep closes the segment. -/
def splitAux (sep : Chars) : Nat → Chars → Chars → List Chars
  | _, acc, [] => [acc.reverse]
  | 0, acc, s => [acc.reverse ++ s]
  | fuel + 1, acc, c :: rest =>
    if List.isPrefixOf sep (c :: rest) then
      acc.reverse :: splitAux sep fuel [] (List.drop (sep.length - 1) rest)
    else
      splitAux sep fuel (c :: acc) rest

/-- Python s.split(sep) for nonempty sep: segments between non-overlapping
occurrences of sep; always a nonempty list (empty input gives one empty
segment). -/
def pysplit (s sep : Chars) : List Chars :=
  if sep = [] then [s] else splitAux sep s.length [] s

/-- One block-level element appended to the output document. Fields record
exactly the attributes the script sets: heading text, level and centering;
paragraph text and centering; code run text, font name and point size;
bullet text (single bold run); sub-bullet text with a fixed left indent
recorded in hundredths of a length-unit (the script uses 0.5, i.e. 50). -/
inductive Elem : Type where
  | heading (text : Chars) (level : Nat) (centered : Bool)
  | para (text : Chars) (centered : Bool)
  | pageBreak
  | codePara (text : Chars) (fontName : Chars) (sizePt : Nat)
  | bulletBold (text : Chars)
  | subBullet (text : Chars) (leftIndentHundredths : Nat)
  deriving DecidableEq, Repr

/-- The mutable state of the per-line loop in the script: current_bullet
(None or a paragraph reference; only its truthiness is ever read, so a
Bool), code_block, code_content, and the elements appended so far. -/
structure LineState where
  currentBullet : Bool
  codeBlock : Bool
  codeContent : List Chars
  out : List Elem
  deriving DecidableEq, Repr

/-- Initial per-slide loop state: current_bullet = None, code_block = False,
code_content = [], nothing appended yet. -/
def initState : LineState :=
  { currentBullet := false, codeBlock := false, codeContent := [], out := [] }

/-- Python: line.strip() equals the triple-backtick marker, or
line.strip() starts with it (a trailing language tag is tolerated). -/
def isFence (line : Chars) : Bool :=
  strip line == "```".data || startswith (strip line) "```".data

/-- Python: line.strip().replace(bullet-prefix, empty).split(double-star)[0].
str.replace removes every occurrence of the four-character prefix
dash space star star; split always returns a nonempty list, so indexing
with [0] is the head. -/
def boldText (line : Chars) : Chars :=
  (pysplit (pyreplace (strip line) "- **".data []) "**".data).headD []

/-- Python: line.strip().replace(sub-bullet-prefix, empty), the prefix being
the four characters space space dash space. -/
def subBulletText (line : Chars) : Chars :=
  pyreplace (strip line) "  - ".data []

/-- One iteration of the per-line loop of the script (lines 46 to 76 of
create_docx.py), translated branch for branch: fence toggle with flush on
close, code-content accumulation, top-level bullet with a bold run, and the
sub-bullet branch guarded by the current-bullet reference. -/
def processLine (st : LineState) (line : Chars) : LineState :=
  if isFence line then
    let newCode := !st.codeBlock
    if newCode = false ∧ st.codeContent ≠ [] then
      { st with codeBlock := newCode, codeContent := [],
                out := st.out ++
                  [Elem.codePara (List.intercalate "\n".data st.codeContent)
                    "Courier New".data 9] }
    else
      { st with codeBlock := newCode }
  else if st.codeBlock then
    { st with codeContent := st.codeContent ++ [line] }
  else if startswith (strip line) "- **".data then
    { st with currentBullet := true,
              out := st.out ++ [Elem.bulletBold (boldText line)] }
  else if startswith (strip line) "  -".data ∧ st.currentBullet then
    { st with out := st.out ++ [Elem.subBullet (subBulletText line) 50] }
  else
    st

/-- Python: content.strip().split(newline). -/
def slideLines (content : Chars) : List Chars :=
  pysplit (strip content) "\n".data

/-- Elements appended for one existing slide file: a page break, a centered
level-1 heading built from lines[0] by str.replace of the two-character
token hash space (all occurrences), then the fold of the per-line loop over
lines[2:]. -/
def processSlide (content : Chars) : List Elem :=
  Elem.pageBreak ::
  Elem.heading (pyreplace ((slideLines content).headD []) "# ".data []) 1 true ::
  (List.foldl processLine initState ((slideLines content).drop 2)).out

/-- The unconditional title section: add_heading at level 0, centered, and
the centered subtitle paragraph. -/
def titleElems : List Elem :=
  [Elem.heading "Laravel Packages Scenarios".data 0 true,
   Elem.para "A comprehensive overview of Laravel package development".data true]

/-- One iteration of the slide loop: a missing file is skipped, an existing
file contributes its processSlide elements, appended in order. -/
def slideStep (acc : List Elem) (s : Option Chars) : List Elem :=
  match s with
  | none => acc
  | some content => acc ++ processSlide content

/-- The whole document body: title elements, then the loop
for i in range(1, 11) over the optional slide contents. -/
def buildDoc (slides : Nat → Option Chars) : List Elem :=
  List.foldl (fun acc i => slideStep acc (slides i)) titleElems
    (List.range' 1 10)

example : processSlide "# T\n\n- **Foo** x\n  - Detail".data =
    [Elem.pageBreak, Elem.heading "T".data 1 true,
     Elem.bulletBold "Foo".data] := by decide

example : processSlide "# A # B".data =
    [Elem.pageBreak, Elem.heading "A B".data 1 true] := by decide

example : processSlide "\nA\nB".data =
    [Elem.pageBreak, Elem.heading "A".data 1 true] := by decide

example : processSlide "# T\n\n- **Foo- **Bar** baz".data =
    [Elem.pageBreak, Elem.heading "T".data 1 true,
     Elem.bulletBold "FooBar".data] := by decide

example : processSlide "# T\n\n```python\ncode here\nmore code\n```".data =
    [Elem.pageBreak, Elem.heading "T".data 1 true,
     Elem.codePara "code here\nmore code".data "Courier New".data 9] := by decide

example : processSlide "# T\n\n```\nhidden\nlines".data =
    [Elem.pageBreak, Elem.heading "T".data 1 true] := by decide

/-- The head of dropWhile never satisfies the dropped predicate. -/
lemma dropWhile_head_false (p : Char → Bool) :
    ∀ (l : List Char) (c : Char) (t : List Char),
      l.dropWhile p = c :: t → p c = false := by
  intro l
  induction l with
  | nil =>
    intro c t h
    simp [List.dropWhile] at h
  | cons a l ih =>
    intro c t h
    rw [List.dropWhile_cons] at h
    by_cases hp : p a
    · rw [if_pos hp] at h
      exact ih c t h
    · rw [if_neg hp] at h
      cases h
      exact Bool.eq_false_iff.mpr hp

/-- The stripped string is a prefix of the string with only leading
whitespace dropped. -/
lemma strip_prefix_of_dropWhile (s : Chars) :
    strip s <+: s.dropWhile Char.isWhitespace := by
  unfold strip
  have h1 : ((s.dropWhile Char.isWhitespace).reverse.dropWhile Char.isWhitespace)
      <:+ (s.dropWhile Char.isWhitespace).reverse :=
    List.dropWhile_suffix _
  have h2 := List.reverse_prefix.mpr h1
  simpa using h2

/-- A stripped string never begins with a space character, hence never with
the three-character sub-bullet marker space space dash: the guard of the
sub-bullet branch of the script is unsatisfiable. -/
lemma strip_startswith_spaces_false (s : Chars) :
    startswith (strip s) "  -".data = false := by
  unfold startswith
  by_contra hne
  have hpre : "  -".data <+: strip s :=
    List.isPrefixOf_iff_prefix.mp (Bool.of_not_eq_false hne)
  have hpre2 : "  -".data <+: s.dropWhile Char.isWhitespace :=
    hpre.trans (strip_prefix_of_dropWhile s)
  obtain ⟨t, ht⟩ := hpre2
  have hws : Char.isWhitespace ' ' = false :=
    dropWhile_head_false Char.isWhitespace s ' ' (' ' :: '-' :: t) (by simpa using ht.symm)
  simp at hws

/-- Every branch of the per-line loop only appends to the element list. -/
lemma processLine_out (st : LineState) (line : Chars) :
    ∃ t, (processLine st line).out = st.out ++ t := by
  simp only [processLine]
  split
  · split
    · exact ⟨_, rfl⟩
    · exact ⟨[], by simp⟩
  · split
    · exact ⟨[], by simp⟩
    · split
      · exact ⟨_, rfl⟩
      · split
        · exact ⟨_, rfl⟩
        · exact ⟨[], by simp⟩

/-- Folding the per-line loop over any list of lines only appends. -/
lemma foldl_processLine_out (lines : List Chars) :
    ∀ st : LineState, ∃ t, (List.foldl processLine st lines).out = st.out ++ t := by
  induction lines with
  | nil =>
    intro st
    exact ⟨[], by simp⟩
  | cons l ls ih =>
    intro st
    obtain ⟨t1, h1⟩ := processLine_out st l
    obtain ⟨t2, h2⟩ := ih (processLine st l)
    refine ⟨t1 ++ t2, ?_⟩
    rw [List.foldl_cons, h2, h1, List.append_assoc]

/-- An opening fence seen outside a code block toggles the flag and emits
nothing. -/
lemma processLine_open (st : LineState) (line : Chars)
    (hcb : st.codeBlock = false) (hf : isFence line = true) :
    processLine st line = { st with codeBlock := true } := by
  simp [processLine, hf, hcb]

/-- A closing fence seen inside a code block with accumulated content flushes
exactly one monospace paragraph and clears the accumulator. -/
lemma processLine_close (st : LineState) (line : Chars)
    (hcb : st.codeBlock = true) (hcc : st.codeContent ≠ [])
    (hf : isFence line = true) :
    processLine st line =
      { st with codeBlock := false, codeContent := [],
                out := st.out ++
                  [Elem.codePara (List.intercalate "\n".data st.codeContent)
                    "Courier New".data 9] } := by
  simp [processLine, hf, hcb, hcc]

/-- Inside a code block, non-fence lines are accumulated verbatim and emit
nothing. -/
lemma foldl_code (body : List Chars) :
    ∀ st : LineState, st.codeBlock = true →
      (∀ l ∈ body, isFence l = false) →
      List.foldl processLine st body =
        { st with codeContent := st.codeContent ++ body } := by
  induction body with
  | nil =>
    intro st _ _
    simp
  | cons l ls ih =>
    intro st hcb hf
    have hl : isFence l = false := hf l (List.mem_cons_self l ls)
    have hstep : processLine st l = { st with codeContent := st.codeContent ++ [l] } := by
      simp [processLine, hl, hcb]
    rw [List.foldl_cons, hstep,
      ih { st with codeContent := st.codeContent ++ [l] } hcb
        (fun x hx => hf x (List.mem_cons_of_mem l hx))]
    simp

/-- The slide loop is the concatenation of the per-slide element lists of the
existing slides, in loop order. -/
lemma foldl_slideStep (slides : Nat → Option Chars) :
    ∀ (l : List Nat) (acc : List Elem),
      List.foldl (fun a i => slideStep a (slides i)) acc l
        = acc ++ (List.filterMap (fun i => (slides i).map processSlide) l).flatten := by
  intro l
  induction l with
  | nil =>
    intro acc
    simp
  | cons x xs ih =>
    intro acc
    cases hx : slides x with
    | none =>
      have h1 : List.foldl (fun a i => slideStep a (slides i)) acc (x :: xs)
          = List.foldl (fun a i => slideStep a (slides i)) acc xs := by
        rw [List.foldl_cons]
        congr 1
        show slideStep acc (slides x) = acc
        rw [hx]
        rfl
      rw [h1, ih acc]
      simp [List.filterMap_cons, hx]
    | some c =>
      have h1 : List.foldl (fun a i => slideStep a (slides i)) acc (x :: xs)
          = List.foldl (fun a i => slideStep a (slides i)) (acc ++ processSlide c) xs := by
        rw [List.foldl_cons]
        congr 1
        show slideStep acc (slides x) = acc ++ processSlide c
        rw [hx]
        rfl
      rw [h1, ih (acc ++ processSlide c)]
      simp [List.filterMap_cons, hx, List.append_assoc]

/-- Claim C1: against the claim, a sub-bullet line such as "  - Detail"
yields no output element even when a top-level bullet was emitted just
before it. The script guards the sub-bullet branch with a test that the
STRIPPED line starts with two spaces and a dash; a stripped string never
begins with a space, so the guard is unsatisfiable for every line and the
branch is dead code: at the failing input with a preceding bullet, only the
page break, the heading and the bold bullet are emitted. -/
theorem c1_subbullet_branch_dead :
    processSlide "# T\n\n- **Foo** x\n  - Detail".data =
      [Elem.pageBreak, Elem.heading "T".data 1 true, Elem.bulletBold "Foo".data]
    ∧ ∀ line : Chars, startswith (strip line) "  -".data = false :=
  ⟨by decide, strip_startswith_spaces_false⟩

/-- Claim C2 counterexample: for the first line "# A # B" the emitted
heading text is "A B", not "A # B": the later occurrence of the hash-space
token is removed as well, so the claim as stated is false. -/
theorem c2_counterexample :
    processSlide "# A # B".data =
      [Elem.pageBreak, Elem.heading "A B".data 1 true]
    ∧ "A B".data ≠ "A # B".data :=
  ⟨by decide, by decide⟩

/-- Claim C2 as amended: for every slide whose first content line begins
with the hash-space token, the emitted level-1 heading text is that line
with EVERY occurrence of the two-character hash-space token removed (the
script uses str.replace, which is not limited to the leading token). -/
theorem c2_heading_replaces_all (content : Chars)
    (_h : startswith ((slideLines content).headD []) "# ".data = true) :
    (processSlide content).get? 1 =
      some (Elem.heading
        (pyreplace ((slideLines content).headD []) "# ".data []) 1 true) :=
  rfl

/-- Witness for claim C2: the amended statement evaluated at the slide
content "# A # B". -/
theorem c2_witness :
    (processSlide "# A # B".data).get? 1 =
      some (Elem.heading "A B".data 1 true) :=
  c2_heading_replaces_all "# A # B".data (by decide)

/-- Claim C3 counterexample: for the file content consisting of a blank
first physical line followed by "A" and "B", the heading is built from "A"
(the first line after stripping the whole content), not from the blank
physical line 1, so the claim as stated is false. -/
theorem c3_counterexample :
    processSlide "\nA\nB".data =
      [Elem.pageBreak, Elem.heading "A".data 1 true]
    ∧ processSlide "\nA\nB".data ≠
        [Elem.pageBreak, Elem.heading ([] : Chars) 1 true] :=
  ⟨by decide, by decide⟩

/-- Claim C3 as amended: the content is stripped of leading and trailing
whitespace before being split into lines; the FIRST line of the stripped
content is used as the section heading, the SECOND line of the stripped
content is skipped, and the remaining stripped lines feed the per-line
loop. -/
theorem c3_heading_from_stripped_lines (content : Chars) (l1 l2 : Chars)
    (rest : List Chars) (h : slideLines content = l1 :: l2 :: rest) :
    processSlide content =
      Elem.pageBreak :: Elem.heading (pyreplace l1 "# ".data []) 1 true ::
        (List.foldl processLine initState rest).out := by
  unfold processSlide
  rw [h]
  rfl

/-- Witness for claim C3: the amended statement evaluated at a slide with
heading line, blank separator line and one unrecognized body line. -/
theorem c3_witness :
    processSlide "# T\n\n- x".data =
      [Elem.pageBreak, Elem.heading "T".data 1 true] :=
  c3_heading_from_stripped_lines "# T\n\n- x".data "# T".data []
    ["- x".data] (by decide)

/-- Claim C4 counterexample: for the bullet line "- **Foo- **Bar** baz" the
emitted bold text is "FooBar", not the substring "Foo- " between the prefix
and the next double-star: str.replace removes the SECOND occurrence of the
dash-space-star-star prefix as well, splicing the following text into the
label, so the claim as stated is false. -/
theorem c4_counterexample :
    processSlide "# T\n\n- **Foo- **Bar** baz".data =
      [Elem.pageBreak, Elem.heading "T".data 1 true,
       Elem.bulletBold "FooBar".data]
    ∧ "FooBar".data ≠ "Foo- ".data :=
  ⟨by decide, by decide⟩

/-- Claim C4 as amended: for every line outside a code block whose trimmed
form starts with dash-space-star-star, a bulleted paragraph with a single
bold run is emitted whose text is the first double-star-separated segment of
the trimmed line after removing EVERY occurrence of the four-character
prefix; when that prefix occurs only at the start, this equals the substring
between the prefix and the next double-star. -/
theorem c4_bullet_bold_text (st : LineState) (line : Chars)
    (hcb : st.codeBlock = false) (hf : isFence line = false)
    (hb : startswith (strip line) "- **".data = true) :
    processLine st line =
      { st with currentBullet := true,
                out := st.out ++ [Elem.bulletBold
                  ((pysplit (pyreplace (strip line) "- **".data [])
                    "**".data).headD [])] } := by
  simp [processLine, hf, hcb, hb, boldText]

/-- Witness for claim C4: the amended statement evaluated at the bullet
line "- **Foo** more text" from the initial loop state. -/
theorem c4_witness :
    processLine initState "- **Foo** more text".data =
      { initState with currentBullet := true,
                       out := [Elem.bulletBold "Foo".data] } :=
  c4_bullet_bold_text initState "- **Foo** more text".data rfl
    (by decide) (by decide)

/-- Claim C5: a fenced code block that opens and later closes with at least
one accumulated line emits exactly one paragraph at the closing fence, a
single run in the fixed monospace font at 9pt whose text is the accumulated
lines joined with newlines; neither fence line is part of the text, and the
rest of the state returns to its pre-block value. -/
theorem c5_code_block_flush (st : LineState) (openLine closeLine : Chars)
    (body : List Chars)
    (hcb : st.codeBlock = false) (hcc : st.codeContent = [])
    (hopen : isFence openLine = true) (hclose : isFence closeLine = true)
    (hbody : ∀ l ∈ body, isFence l = false) (hne : body ≠ []) :
    List.foldl processLine st (openLine :: (body ++ [closeLine])) =
      { st with out := st.out ++
          [Elem.codePara (List.intercalate "\n".data body)
            "Courier New".data 9] } := by
  rw [List.foldl_cons, processLine_open st openLine hcb hopen,
    List.foldl_append,
    foldl_code body { st with codeBlock := true } rfl hbody,
    List.foldl_cons, List.foldl_nil,
    processLine_close _ closeLine rfl (by simp [hcc, hne]) hclose]
  simp [hcb, hcc]

/-- Witness for claim C5: the statement evaluated on the concrete block
with body lines "code here" and "more code" between plain fences. -/
theorem c5_witness :
    List.foldl processLine initState
        ("```".data :: (["code here".data, "more code".data] ++ ["```".data])) =
      { initState with out :=
          [Elem.codePara "code here\nmore code".data "Courier New".data 9] } :=
  c5_code_block_flush initState "```".data "```".data
    ["code here".data, "more code".data]
    rfl rfl (by decide) (by decide) (by decide) (by decide)

/-- Claim C6: after an opening fence that is never matched by a closing
fence, the remaining lines of the slide produce no output element at all:
the element list is exactly what it was before the opening fence, so the
accumulated lines appear nowhere in the document. -/
theorem c6_unclosed_fence_discards (st : LineState) (openLine : Chars)
    (rest : List Chars)
    (hcb : st.codeBlock = false) (hopen : isFence openLine = true)
    (hrest : ∀ l ∈ rest, isFence l = false) :
    (List.foldl processLine st (openLine :: rest)).out = st.out := by
  rw [List.foldl_cons, processLine_open st openLine hcb hopen,
    foldl_code rest { st with codeBlock := true } rfl hrest]

/-- Witness for claim C6: an unclosed fence followed by one line, from the
initial loop state, emits nothing. -/
theorem c6_witness :
    (List.foldl processLine initState
      ("```".data :: ["hidden line".data])).out = [] :=
  c6_unclosed_fence_discards initState "```".data ["hidden line".data]
    rfl (by decide) (by decide)

/-- Claim C7: the document body is the title elements followed by the
per-slide element lists of exactly the existing slide indices, taken in
ascending order 1..10; a missing index contributes nothing, and every
existing slide contributes one section beginning with a page break and a
centered level-1 heading. -/
theorem c7_sections_in_order (slides : Nat → Option Chars) :
    buildDoc slides =
      titleElems ++
        (List.filterMap (fun i => (slides i).map processSlide)
          (List.range' 1 10)).flatten
    ∧ ∀ content : Chars, ∃ t rest,
        processSlide content = Elem.pageBreak :: Elem.heading t 1 true :: rest := by
  constructor
  · exact foldl_slideStep slides (List.range' 1 10) titleElems
  · intro content
    exact ⟨_, _, rfl⟩

/-- Claim C8: the conversion is deterministic: the document body is a pure
function of the slide contents, so two runs over pointwise identical inputs
produce identical element sequences. -/
theorem c8_deterministic (s1 s2 : Nat → Option Chars)
    (h : ∀ i, s1 i = s2 i) : buildDoc s1 = buildDoc s2 := by
  have hs : s1 = s2 := funext h
  rw [hs]

/-- Witness for claim C8: two syntactically different but pointwise equal
input assignments give the same document body. -/
theorem c8_witness :
    buildDoc (fun _ => some "# T".data) =
      buildDoc (fun _ => some ("# T".data ++ [])) :=
  c8_deterministic _ _ (fun _ => rfl)

/-- Claim C9: the run is append-only: each step of the per-line loop, each
fold of that loop, each iteration of the slide loop, and the whole build
only extend the element list at its end; the title elements and everything
emitted for earlier slides stay as an unchanged prefix. -/
theorem c9_append_only :
    (∀ (st : LineState) (line : Chars),
        ∃ t, (processLine st line).out = st.out ++ t)
    ∧ (∀ (lines : List Chars) (st : LineState),
        ∃ t, (List.foldl processLine st lines).out = st.out ++ t)
    ∧ (∀ (slides : Nat → Option Chars) (acc : List Elem) (l : List Nat),
        ∃ t, List.foldl (fun a i => slideStep a (slides i)) acc l = acc ++ t)
    ∧ (∀ slides : Nat → Option Chars,
        ∃ t, buildDoc slides = titleElems ++ t) := by
  refine ⟨processLine_out, foldl_processLine_out, ?_, ?_⟩
  · intro slides acc l
    exact ⟨_, foldl_slideStep slides l acc⟩
  · intro slides
    exact ⟨_, foldl_slideStep slides (List.range' 1 10) titleElems⟩

/-- Claim C10: a slide file that exists but is empty or whitespace-only is
processed without failure: splitting the stripped content yields one empty
line, so a page break and a centered level-1 heading with empty text are
emitted and nothing else follows for that slide. -/
theorem c10_blank_slide (content : Chars) (h : strip content = []) :
    processSlide content = [Elem.pageBreak, Elem.heading [] 1 true] := by
  unfold processSlide slideLines
  rw [h]
  decide

/-- Witness for claim C10: a whitespace-only slide content consisting of
spaces and a newline. -/
theorem c10_witness :
    processSlide " \n ".data = [Elem.pageBreak, Elem.heading [] 1 true] :=
  c10_blank_slide " \n ".data (by decide)

end CreateDocx
